import Mathlib

/-!
Verification development for the `clauder` AI collaboration GUI backend
(`src-tauri`).  The Rust source is shallowly embedded: machine integers
(`i32`) become `Int`, `f32` values (only the literals `0.0` and `0.95`
occur, used without arithmetic) become `Rat`, `DateTime<Utc>` becomes an
abstract instant `Nat`, `serde_json::Value` becomes a small `Json`
inductive, `HashMap` becomes an association list, and `Result<_, String>`
becomes `Except String _`.  Calls to `Uuid::new_v4()` and `Utc::now()`
are modelled as explicit parameters (a fresh-id supply and a clock value).
-/

namespace Clauder

/-- Shallow model of a `serde_json::Value` payload.  Only the shapes the
embedded code actually builds (null, strings, objects) are needed. -/
inductive Json where
  | null : Json
  | str : String → Json
  | obj : List (String × Json) → Json

/-- `TaskResult` from `commands/swarm.rs`.  `confidence` is `f32` in the
source; the only value ever written is the literal `0.95`, modelled as the
rational `95/100` (the nearest `f32` to `0.95` also lies in `[0,1]`). -/
structure TaskResult where
  id : String
  task_id : String
  agent_id : String
  output : Json
  confidence : Rat
  timestamp : Nat

/-- `Task` from `commands/swarm.rs`.  `status` is one of the strings
`pending`, `in_progress`, `completed`, `failed`, `cancelled`. -/
structure Task where
  id : String
  title : String
  description : String
  status : String
  priority : Int
  assigned_to : Option String
  dependencies : List String
  estimated_duration : Option Int
  actual_duration : Option Int
  results : List TaskResult
  created_at : Nat
  updated_at : Nat

/-- `AgentMetrics` from `commands/swarm.rs` (`f32` fields as `Rat`,
`HashMap<String, f32>` as an association list). -/
structure AgentMetrics where
  tasks_completed : Int
  success_rate : Rat
  average_response_time : Rat
  collaboration_rating : Rat
  specialty_score : List (String × Rat)

/-- `Agent` from `commands/swarm.rs`. -/
structure Agent where
  id : String
  agent_type : String
  ai_tool : String
  role : String
  specialization : List String
  current_task : Option Task
  performance : AgentMetrics
  is_active : Bool
  swarm_id : String

/-- `SwarmConfig` from `commands/swarm.rs`.  The source field `namespace`
is a Lean keyword and is embedded as `name_space`. -/
structure SwarmConfig where
  name : String
  objective : String
  agent_count : Int
  agent_types : List String
  name_space : Option String
  strategy : Option String

/-- `MemoryEntry` from `commands/swarm.rs`. -/
structure MemoryEntry where
  id : String
  entry_type : String
  content : Json
  metadata : List (String × Json)
  importance : Int
  timestamp : Nat

/-- `SwarmMemory` from `commands/swarm.rs`.  The source field `namespace`
is a Lean keyword and is embedded as `name_space`. -/
structure SwarmMemory where
  name_space : String
  entries : List MemoryEntry
  capacity : Int
  retention_policy : String

/-- `SwarmMetrics` from `commands/swarm.rs`. -/
structure SwarmMetrics where
  tasks_completed : Int
  average_task_duration : Rat
  success_rate : Rat
  collaboration_score : Rat
  total_execution_time : Int
  cost_estimate : Option Rat

/-- `Position` from `commands/swarm.rs`. -/
structure Position where
  x : Rat
  y : Rat

/-- `Connection` from `commands/swarm.rs`. -/
structure Connection where
  id : String
  source_id : String
  target_id : String
  condition : Option String
  label : Option String

/-- `WorkflowNode` from `commands/swarm.rs`. -/
structure WorkflowNode where
  id : String
  node_type : String
  name : String
  position : Position
  data : Json
  connections : List Connection
  status : String

/-- `Swarm` from `commands/swarm.rs`. -/
structure Swarm where
  id : String
  name : String
  project_id : String
  objective : String
  status : String
  agents : List Agent
  workflow : List WorkflowNode
  memory : SwarmMemory
  metrics : SwarmMetrics
  created_at : Nat
  updated_at : Nat

/-- Zeroed `AgentMetrics`, as written inline by `mock_create_swarm`. -/
def zeroAgentMetrics : AgentMetrics :=
  { tasks_completed := 0, success_rate := 0, average_response_time := 0,
    collaboration_rating := 0, specialty_score := [] }

/-- `mock_create_swarm` from `commands/swarm.rs`.  `swarmId` models the
`Uuid::new_v4()` drawn for the swarm, `agentId i` the one drawn for the
agent built from the `i`-th entry of `config.agent_types`, and `now` the
single `Utc::now()` call.  The roster maps over `config.agent_types`
(one agent per listed type); `config.agent_count` is never read. -/
def mock_create_swarm (swarmId : String) (agentId : Nat → String) (now : Nat)
    (config : SwarmConfig) (project_id : String) : Swarm :=
  { id := swarmId
    name := config.name
    project_id := project_id
    objective := config.objective
    status := "initializing"
    agents := config.agent_types.enum.map (fun p =>
      { id := agentId p.1
        agent_type := p.2
        ai_tool := "claude-code"
        role := if p.2 == "queen" then "coordinator" else "executor"
        specialization := [p.2]
        current_task := none
        performance := zeroAgentMetrics
        is_active := true
        swarm_id := swarmId })
    workflow := []
    memory :=
      { name_space := config.name_space.getD swarmId
        entries := []
        capacity := 1000
        retention_policy := "lru" }
    metrics :=
      { tasks_completed := 0, average_task_duration := 0, success_rate := 0,
        collaboration_score := 0, total_execution_time := 0, cost_estimate := none }
    created_at := now
    updated_at := now }

/-- `create_swarm` command from `commands/swarm.rs`: delegates to
`mock_create_swarm`, which never fails, so the command always returns
`Ok`. -/
def create_swarm (swarmId : String) (agentId : Nat → String) (now : Nat)
    (config : SwarmConfig) (project_id : String) : Except String Swarm :=
  Except.ok (mock_create_swarm swarmId agentId now config project_id)

/-- `mock_get_swarms` from `commands/swarm.rs`: always returns the empty
list, so no swarm id ever identifies an existing swarm. -/
def mock_get_swarms (_project_id : Option String) : List Swarm := []

/-- `get_swarms` command from `commands/swarm.rs`. -/
def get_swarms (project_id : Option String) : Except String (List Swarm) :=
  Except.ok (mock_get_swarms project_id)

/-- `mock_execute_task` from `commands/swarm.rs`.  `freshId` models the
`Uuid::new_v4()` call and `now` the `Utc::now()` call.  The source wraps
the task title in single quotes inside the message string; the quotes are
elided here, which no theorem below inspects. -/
def mock_execute_task (freshId : String) (now : Nat)
    (swarm_id : String) (task : Task) : TaskResult :=
  { id := freshId
    task_id := task.id
    agent_id := "agent_" ++ swarm_id ++ "_0"
    output := Json.obj
      [("message", Json.str ("Task " ++ task.title ++ " completed successfully")),
       ("details", Json.str "Mock task execution result")]
    confidence := 95 / 100
    timestamp := now }

/-- `execute_swarm_task` command from `commands/swarm.rs`: delegates to
`mock_execute_task` with no validation of the task or its dependencies;
the mock never fails, so the command always returns `Ok`. -/
def execute_swarm_task (freshId : String) (now : Nat)
    (swarm_id : String) (task : Task) : Except String TaskResult :=
  Except.ok (mock_execute_task freshId now swarm_id task)

/-- `pause_swarm` command from `commands/swarm.rs`: `mock_pause_swarm`
ignores its argument and returns `Ok(())`. -/
def pause_swarm (_swarm_id : String) : Except String Unit := Except.ok ()

/-- `resume_swarm` command from `commands/swarm.rs`: `mock_resume_swarm`
ignores its argument and returns `Ok(())`. -/
def resume_swarm (_swarm_id : String) : Except String Unit := Except.ok ()

/-- `stop_swarm` command from `commands/swarm.rs`: `mock_stop_swarm`
ignores its argument and returns `Ok(())`. -/
def stop_swarm (_swarm_id : String) : Except String Unit := Except.ok ()

/-- `add_agent_to_swarm` command from `commands/swarm.rs`:
`mock_add_agent` returns the given agent unchanged for any swarm id. -/
def add_agent_to_swarm (_swarm_id : String) (agent : Agent) : Except String Agent :=
  Except.ok agent

/-- `remove_agent_from_swarm` command from `commands/swarm.rs`:
`mock_remove_agent` ignores both arguments and returns `Ok(())`. -/
def remove_agent_from_swarm (_swarm_id : String) (_agent_id : String) :
    Except String Unit := Except.ok ()

/-- The hard-coded entry built by `mock_query_memory` in
`commands/swarm.rs`; `freshId` models `Uuid::new_v4()`, `now` models
`Utc::now()`. -/
def mockMemoryEntry (freshId : String) (now : Nat) : MemoryEntry :=
  { id := freshId
    entry_type := "conversation"
    content := Json.obj
      [("message", Json.str "Mock memory entry"),
       ("context", Json.str "This is a sample memory entry for testing")]
    metadata := []
    importance := 5
    timestamp := now }

/-- `mock_query_memory` from `commands/swarm.rs`: both the namespace and
the query argument are ignored; a single hard-coded entry is returned. -/
def mock_query_memory (freshId : String) (now : Nat)
    (_name_space : String) (_query : String) : List MemoryEntry :=
  [mockMemoryEntry freshId now]

/-- `query_swarm_memory` command from `commands/swarm.rs`. -/
def query_swarm_memory (freshId : String) (now : Nat)
    (name_space : String) (query : String) : Except String (List MemoryEntry) :=
  Except.ok (mock_query_memory freshId now name_space query)

/-- Insert `a` into `l` before the first element `b` with `le a b`.
Helper for the sorted sequences below (SQL `ORDER BY` and the ordered
ready queue); structural, so concrete instances reduce by `rfl`. -/
def insertBy {α : Type} (le : α → α → Bool) (a : α) : List α → List α
  | [] => [a]
  | b :: l => if le a b then a :: b :: l else b :: insertBy le a l

/-- Insertion sort by the Boolean relation `le`. -/
def sortBy {α : Type} (le : α → α → Bool) : List α → List α
  | [] => []
  | a :: l => insertBy le a (sortBy le l)

namespace Database

/-- `DbSwarm` from `database.rs`.  The `created_at`/`updated_at` columns
are stored through `to_rfc3339` and read back through
`parse_from_rfc3339(..).with_timezone(&Utc)`; for `Utc` datetimes chrono
renders full precision and parsing inverts it exactly, so the codec is
embedded as the identity on abstract instants (`Nat`). -/
structure DbSwarm where
  id : String
  name : String
  project_id : String
  objective : String
  status : String
  config : String
  created_at : Nat
  updated_at : Nat
deriving DecidableEq

/-- A row of the SQLite `swarms` table created in `database.rs`. -/
structure SwarmRow where
  id : String
  name : String
  project_id : String
  objective : String
  status : String
  config : String
  created_at : Nat
  updated_at : Nat
deriving DecidableEq

/-- The `swarms` table, in insertion order. -/
abbrev SwarmTable := List SwarmRow

/-- The row written for a swarm by the `INSERT INTO swarms` statement. -/
def toRow (s : DbSwarm) : SwarmRow :=
  { id := s.id, name := s.name, project_id := s.project_id,
    objective := s.objective, status := s.status, config := s.config,
    created_at := s.created_at, updated_at := s.updated_at }

/-- The `DbSwarm` reconstructed from a row by the `query_map` closure of
`get_swarms_by_project`. -/
def rowToSwarm (r : SwarmRow) : DbSwarm :=
  { id := r.id, name := r.name, project_id := r.project_id,
    objective := r.objective, status := r.status, config := r.config,
    created_at := r.created_at, updated_at := r.updated_at }

/-- `create_swarm` from `database.rs`: `INSERT INTO swarms` appends a row;
`id` is the primary key, so a duplicate id makes the insert fail and the
function return the rusqlite error. -/
def create_swarm (tbl : SwarmTable) (s : DbSwarm) : Except String SwarmTable :=
  if tbl.any (fun r => r.id == s.id) then
    Except.error "UNIQUE constraint failed: swarms.id"
  else
    Except.ok (tbl ++ [toRow s])

/-- The list produced by the `SELECT .. FROM swarms WHERE project_id = ?
ORDER BY updated_at DESC` query of `get_swarms_by_project`. -/
def swarmsForProject (tbl : SwarmTable) (project_id : String) : List DbSwarm :=
  (sortBy (fun a b => decide (b.updated_at ≤ a.updated_at))
    (tbl.filter (fun r => r.project_id == project_id))).map rowToSwarm

/-- `get_swarms_by_project` from `database.rs`.  With the exact timestamp
codec modelled as the identity, the per-row parse never fails. -/
def get_swarms_by_project (tbl : SwarmTable) (project_id : String) :
    Except String (List DbSwarm) :=
  Except.ok (swarmsForProject tbl project_id)

end Database

/-- `db_update_swarm_status` from `commands/database.rs`: the body only
logs the requested update and returns `Ok(())`; it never touches the
database, so the table is passed through unchanged. -/
def db_update_swarm_status (tbl : Database.SwarmTable)
    (_swarm_id : String) (_status : String) :
    Except String Unit × Database.SwarmTable :=
  (Except.ok (), tbl)

/-- Modelled from the spec: the Task Graph's readiness test is not
implemented under `src/` (only the `Task` struct is declared there); §3
states a task is ready iff its status is `pending` and every dependency
task's status is `completed`.  A dependency id counts as completed when
it refers to a task of the graph whose status is `completed`. -/
def dependencyCompleted (g : List Task) (d : String) : Bool :=
  g.any (fun u => u.id == d && u.status == "completed")

/-- Modelled from the spec: the §3 readiness invariant for a task of the
graph `g`. -/
def isReady (g : List Task) (t : Task) : Bool :=
  t.status == "pending" && t.dependencies.all (fun d => dependencyCompleted g d)

/-- Modelled from the spec: §4.1 orders the ready sequence by descending
priority, ties broken by ascending creation time. -/
def readyOrder (a b : Task) : Bool :=
  decide (b.priority < a.priority) ||
    (a.priority == b.priority && decide (a.created_at ≤ b.created_at))

/-- Modelled from the spec: `ready_tasks()` of §4.1 is not implemented
under `src/`; it produces the ids of the tasks currently satisfying the
readiness invariant, ordered by descending priority with ties broken by
ascending creation time. -/
def ready_tasks (g : List Task) : List String :=
  (sortBy readyOrder (g.filter (fun t => isReady g t))).map Task.id

namespace MemoryStore

/-- Remove the first element of `l` that the Boolean relation `le` ranks
no worse than every later element; on a nonempty list exactly one element
is removed. -/
def removeFirstMin {α : Type} (le : α → α → Bool) : List α → List α
  | [] => []
  | a :: l => if l.all (le a) then l else a :: removeFirstMin le l

/-- Modelled from the spec: the §4.4 eviction step of the Memory Store,
which is declared (`SwarmMemory.retention_policy`) but never enforced
under `src/`.  `priority` evicts the entry of lowest importance, ties
broken by oldest timestamp; `fifo` evicts the entry with the oldest
timestamp.  Under a sequence of `put` operations with no intervening
`query`/`get`, each entry's LRU last-access time equals its insertion
timestamp, so `lru` eviction also selects the oldest timestamp. -/
def evict (policy : String) (l : List MemoryEntry) : List MemoryEntry :=
  if policy == "priority" then
    removeFirstMin (fun a b =>
      decide (a.importance < b.importance) ||
        (a.importance == b.importance && decide (a.timestamp ≤ b.timestamp))) l
  else
    removeFirstMin (fun a b => decide (a.timestamp ≤ b.timestamp)) l

/-- Modelled from the spec: `put(entry)` of §4.4, not implemented under
`src/`.  If the namespace already holds `capacity` entries, one entry is
evicted per the retention policy before the new entry is appended;
capacity and policy are immutable. -/
def put (m : SwarmMemory) (e : MemoryEntry) : SwarmMemory :=
  if m.capacity ≤ (m.entries.length : Int) then
    { m with entries := evict m.retention_policy m.entries ++ [e] }
  else
    { m with entries := m.entries ++ [e] }

end MemoryStore

/-- Concrete ready task for witnesses: pending, one dependency. -/
def taskP : Task :=
  { id := "t-pend", title := "build", description := "build step",
    status := "pending", priority := 5, assigned_to := none,
    dependencies := ["t-done"], estimated_duration := none,
    actual_duration := none, results := [], created_at := 2, updated_at := 2 }

/-- Concrete completed task for witnesses. -/
def taskD : Task :=
  { id := "t-done", title := "plan", description := "plan step",
    status := "completed", priority := 7, assigned_to := none,
    dependencies := [], estimated_duration := none,
    actual_duration := none, results := [], created_at := 1, updated_at := 1 }

/-- Concrete two-task graph for witnesses. -/
def gEx : List Task := [taskP, taskD]

/-- A task whose dependency set contains its own id, the smallest
dependency cycle. -/
def cyclicTask : Task :=
  { id := "t-cyc", title := "loop", description := "depends on itself",
    status := "pending", priority := 1, assigned_to := none,
    dependencies := ["t-cyc"], estimated_duration := none,
    actual_duration := none, results := [], created_at := 3, updated_at := 3 }

/-- A plain concrete task for witnesses. -/
def exampleTask : Task :=
  { id := "t-42", title := "report", description := "write report",
    status := "pending", priority := 2, assigned_to := none,
    dependencies := [], estimated_duration := none,
    actual_duration := none, results := [], created_at := 4, updated_at := 4 }

/-- A concrete agent for the command counterexample. -/
def exampleAgent : Agent :=
  { id := "a-1", agent_type := "developer", ai_tool := "claude-code",
    role := "executor", specialization := ["developer"],
    current_task := none, performance := zeroAgentMetrics,
    is_active := true, swarm_id := "no-such-swarm" }

/-- A configuration whose `agent_count` (3) disagrees with the number of
listed agent types (1). -/
def cfgMismatch : SwarmConfig :=
  { name := "s", objective := "o", agent_count := 3,
    agent_types := ["developer"], name_space := none, strategy := none }

/-- A deterministic fresh-id supply for witnesses. -/
def exampleIdGen : Nat → String := fun n => "id-" ++ toString n

/-- The single agent `mock_create_swarm` builds from `cfgMismatch` with
swarm id `sw-9` and the fresh-id supply `exampleIdGen`. -/
def devAgent : Agent :=
  { id := exampleIdGen 0, agent_type := "developer", ai_tool := "claude-code",
    role := "executor", specialization := ["developer"], current_task := none,
    performance := zeroAgentMetrics, is_active := true, swarm_id := "sw-9" }

/-- Golden-case memory entry A (oldest). -/
def entryA : MemoryEntry :=
  { id := "A", entry_type := "decision", content := Json.null,
    metadata := [], importance := 1, timestamp := 1 }

/-- Golden-case memory entry B. -/
def entryB : MemoryEntry :=
  { id := "B", entry_type := "decision", content := Json.null,
    metadata := [], importance := 1, timestamp := 2 }

/-- Golden-case memory entry C (newest). -/
def entryC : MemoryEntry :=
  { id := "C", entry_type := "decision", content := Json.null,
    metadata := [], importance := 1, timestamp := 3 }

/-- An empty `fifo` store of capacity 2 for the golden case. -/
def memFifo2 : SwarmMemory :=
  { name_space := "ns", entries := [], capacity := 2, retention_policy := "fifo" }

/-- A concrete database swarm record for the round-trip witness. -/
def dbS1 : Database.DbSwarm :=
  { id := "sw-1", name := "alpha", project_id := "p-1",
    objective := "ship", status := "initializing",
    config := "\x7b\x7d", created_at := 10, updated_at := 11 }

theorem mem_insertBy {α : Type} (le : α → α → Bool) (a x : α) (l : List α) :
    x ∈ insertBy le a l ↔ x = a ∨ x ∈ l := by
  induction l with
  | nil => simp [insertBy]
  | cons b l ih =>
    simp only [insertBy]
    split
    · simp [List.mem_cons]
    · simp only [List.mem_cons, ih]
      tauto

theorem mem_sortBy {α : Type} (le : α → α → Bool) (x : α) (l : List α) :
    x ∈ sortBy le l ↔ x ∈ l := by
  induction l with
  | nil => simp [sortBy]
  | cons a l ih => simp [sortBy, mem_insertBy, ih]

theorem length_removeFirstMin {α : Type} (le : α → α → Bool) :
    ∀ l : List α, l ≠ [] → (MemoryStore.removeFirstMin le l).length + 1 = l.length := by
  intro l hl
  induction l with
  | nil => exact absurd rfl hl
  | cons a l ih =>
    simp only [MemoryStore.removeFirstMin]
    split
    · simp
    · rename_i hall
      have hne : l ≠ [] := by
        intro he
        subst he
        simp at hall
      have := ih hne
      simp only [List.length_cons]
      omega

theorem length_evict (policy : String) (l : List MemoryEntry) (h : l ≠ []) :
    (MemoryStore.evict policy l).length + 1 = l.length := by
  unfold MemoryStore.evict
  split <;> exact length_removeFirstMin _ l h

theorem put_capacity (m : SwarmMemory) (e : MemoryEntry) :
    (MemoryStore.put m e).capacity = m.capacity := by
  unfold MemoryStore.put
  split <;> rfl

theorem put_length_le (m : SwarmMemory) (e : MemoryEntry)
    (h1 : 1 ≤ m.capacity) (h2 : (m.entries.length : Int) ≤ m.capacity) :
    ((MemoryStore.put m e).entries.length : Int) ≤ m.capacity := by
  unfold MemoryStore.put
  split
  · rename_i hge
    have hne : m.entries ≠ [] := by
      intro he
      rw [he] at hge
      simp at hge
      omega
    have hl := length_evict m.retention_policy m.entries hne
    simp only [List.length_append, List.length_cons, List.length_nil]
    push_cast
    omega
  · rename_i hlt
    simp only [List.length_append, List.length_cons, List.length_nil]
    push_cast
    omega

theorem foldl_put_le (es : List MemoryEntry) :
    ∀ m : SwarmMemory, 1 ≤ m.capacity → (m.entries.length : Int) ≤ m.capacity →
      ((es.foldl MemoryStore.put m).entries.length : Int) ≤ m.capacity := by
  induction es with
  | nil =>
    intro m _ h2
    simpa using h2
  | cons e es ih =>
    intro m h1 h2
    have hc := put_capacity m e
    have hstep := put_length_le m e h1 h2
    have := ih (MemoryStore.put m e) (by rw [hc]; exact h1) (by rw [hc]; exact hstep)
    simpa [hc] using this

theorem isReady_iff (g : List Task) (t : Task) :
    isReady g t = true ↔
      (t.status = "pending" ∧
        ∀ d ∈ t.dependencies, ∃ u ∈ g, u.id = d ∧ u.status = "completed") := by
  simp [isReady, dependencyCompleted, List.all_eq_true, List.any_eq_true,
    Bool.and_eq_true, beq_iff_eq]

/-- Claim C1: for every task graph with distinct task ids and every task
in it, the task appears in the `ready_tasks()` sequence iff its status is
`pending` and every task id listed in its dependencies refers to a task
of the graph whose status is `completed`. -/
theorem ready_tasks_mem_iff (g : List Task) (t : Task)
    (hnodup : (g.map Task.id).Nodup) (hmem : t ∈ g) :
    t.id ∈ ready_tasks g ↔
      (t.status = "pending" ∧
        ∀ d ∈ t.dependencies, ∃ u ∈ g, u.id = d ∧ u.status = "completed") := by
  rw [← isReady_iff g t]
  unfold ready_tasks
  rw [List.mem_map]
  constructor
  · rintro ⟨u, hu, hid⟩
    rw [mem_sortBy, List.mem_filter] at hu
    have heq : u = t := List.inj_on_of_nodup_map hnodup hu.1 hmem hid
    exact heq ▸ hu.2
  · intro hready
    refine ⟨t, ?_, rfl⟩
    rw [mem_sortBy, List.mem_filter]
    exact ⟨hmem, hready⟩

/-- Witness for claim C1 on the concrete two-task graph `gEx`. -/
theorem ready_tasks_mem_iff_witness :
    (gEx.map Task.id).Nodup ∧ taskP ∈ gEx ∧
      (taskP.id ∈ ready_tasks gEx ↔
        (taskP.status = "pending" ∧
          ∀ d ∈ taskP.dependencies, ∃ u ∈ gEx, u.id = d ∧ u.status = "completed")) :=
  ⟨by decide, by simp [gEx], ready_tasks_mem_iff gEx taskP (by decide) (by simp [gEx])⟩

/-- Claim C2: over every sequence of `put` operations the store never
holds more than `capacity` entries, and the `fifo` golden case holds:
capacity 2 with inserts A, B, C leaves exactly the entries B and C. -/
theorem memory_put_capacity_bound (m : SwarmMemory) (es : List MemoryEntry)
    (h1 : 1 ≤ m.capacity) (h2 : (m.entries.length : Int) ≤ m.capacity) :
    ((es.foldl MemoryStore.put m).entries.length : Int) ≤ m.capacity ∧
      ([entryA, entryB, entryC].foldl MemoryStore.put memFifo2).entries =
        [entryB, entryC] :=
  ⟨foldl_put_le es m h1 h2, rfl⟩

/-- Witness for claim C2 on the concrete capacity-2 `fifo` store. -/
theorem memory_put_capacity_bound_witness :
    1 ≤ memFifo2.capacity ∧ ((memFifo2.entries.length : Int) ≤ memFifo2.capacity) ∧
      ((([entryA].foldl MemoryStore.put memFifo2).entries.length : Int) ≤
          memFifo2.capacity ∧
        ([entryA, entryB, entryC].foldl MemoryStore.put memFifo2).entries =
          [entryB, entryC]) :=
  ⟨by decide, by decide,
    memory_put_capacity_bound memFifo2 [entryA] (by decide) (by decide)⟩

/-- Claim C3 counterexample: `cyclicTask` lists its own id among its
dependencies (a dependency cycle), yet `execute_swarm_task` accepts it
and returns `Ok` with a mock result instead of a `ValidationError`. -/
theorem execute_cyclic_counterexample :
    cyclicTask.dependencies = [cyclicTask.id] ∧
      execute_swarm_task "res-9" 9 "swarm-main" cyclicTask =
        Except.ok (mock_execute_task "res-9" 9 "swarm-main" cyclicTask) :=
  ⟨rfl, rfl⟩

/-- Claim C3 (amended): `execute_swarm_task` performs no dependency
validation at all; every submitted task, cyclic dependencies included, is
accepted with an `Ok` task result, and no graph state exists to mutate. -/
theorem execute_swarm_task_no_validation (freshId : String) (now : Nat)
    (swarm_id : String) (task : Task) :
    ∃ r : TaskResult,
      execute_swarm_task freshId now swarm_id task = Except.ok r ∧
        r.task_id = task.id :=
  ⟨mock_execute_task freshId now swarm_id task, rfl, rfl⟩

/-- Claim C4 counterexample: no swarm exists (`mock_get_swarms` is
empty), yet every swarm command invoked with the unknown id
`no-such-swarm` succeeds instead of returning a `SwarmNotFound` error. -/
theorem commands_accept_unknown_swarm_counterexample :
    mock_get_swarms (some "p-1") = [] ∧
      pause_swarm "no-such-swarm" = Except.ok () ∧
      resume_swarm "no-such-swarm" = Except.ok () ∧
      stop_swarm "no-such-swarm" = Except.ok () ∧
      add_agent_to_swarm "no-such-swarm" exampleAgent = Except.ok exampleAgent ∧
      remove_agent_from_swarm "no-such-swarm" "a-1" = Except.ok () ∧
      execute_swarm_task "res-7" 7 "no-such-swarm" exampleTask =
        Except.ok (mock_execute_task "res-7" 7 "no-such-swarm" exampleTask) :=
  ⟨rfl, rfl, rfl, rfl, rfl, rfl, rfl⟩

/-- Claim C4 (amended): every swarm command succeeds for every swarm id;
the mock command layer never returns a `SwarmNotFound` error. -/
theorem swarm_commands_never_not_found (sid aid freshId : String) (now : Nat)
    (agent : Agent) (task : Task) :
    pause_swarm sid = Except.ok () ∧ resume_swarm sid = Except.ok () ∧
      stop_swarm sid = Except.ok () ∧
      add_agent_to_swarm sid agent = Except.ok agent ∧
      remove_agent_from_swarm sid aid = Except.ok () ∧
      (execute_swarm_task freshId now sid task).isOk = true :=
  ⟨rfl, rfl, rfl, rfl, rfl, rfl⟩

/-- Claim C5 counterexample: for `cfgMismatch` (`agent_count = 3`, one
listed agent type) the created roster has 1 agent, not
`config.agent_count` agents. -/
theorem create_swarm_agent_count_counterexample :
    cfgMismatch.agent_count = 3 ∧
      (mock_create_swarm "sw-9" exampleIdGen 0 cfgMismatch "p-1").agents.length = 1 ∧
      ((mock_create_swarm "sw-9" exampleIdGen 0 cfgMismatch "p-1").agents.length : Int) ≠
        cfgMismatch.agent_count :=
  ⟨rfl, rfl, by decide⟩

/-- Claim C5 (amended): the swarm returned by `create_swarm` has status
`initializing` and a roster containing exactly one agent per entry of
`config.agent_types`, of those types in order; `config.agent_count` is
ignored. -/
theorem create_swarm_roster_from_types (swarmId : String) (agentId : Nat → String)
    (now : Nat) (config : SwarmConfig) (project_id : String) :
    (mock_create_swarm swarmId agentId now config project_id).status =
        "initializing" ∧
      (mock_create_swarm swarmId agentId now config project_id).agents.map
          Agent.agent_type = config.agent_types ∧
      create_swarm swarmId agentId now config project_id =
        Except.ok (mock_create_swarm swarmId agentId now config project_id) := by
  refine ⟨rfl, ?_, rfl⟩
  simp only [mock_create_swarm, List.map_map, Function.comp]
  exact List.enum_map_snd config.agent_types

/-- Claim C6: creating a database swarm record and loading the swarms of
its project round-trips the record exactly, every field preserved. -/
theorem db_swarm_roundtrip (tbl : Database.SwarmTable) (s : Database.DbSwarm)
    (tbl' : Database.SwarmTable)
    (h : Database.create_swarm tbl s = Except.ok tbl') :
    Database.get_swarms_by_project tbl' s.project_id =
        Except.ok (Database.swarmsForProject tbl' s.project_id) ∧
      s ∈ Database.swarmsForProject tbl' s.project_id := by
  refine ⟨rfl, ?_⟩
  unfold Database.create_swarm at h
  split at h
  · exact absurd h (by simp)
  · have htbl : tbl' = tbl ++ [Database.toRow s] := by
      injection h with h'
      exact h'.symm
    subst htbl
    unfold Database.swarmsForProject
    have hrow : Database.toRow s ∈
        (tbl ++ [Database.toRow s]).filter
          (fun r => r.project_id == s.project_id) := by
      rw [List.mem_filter]
      exact ⟨by simp, by simp [Database.toRow]⟩
    have hmemS := (mem_sortBy
      (fun a b => decide (b.updated_at ≤ a.updated_at)) (Database.toRow s) _).mpr hrow
    have hback : Database.rowToSwarm (Database.toRow s) = s := by
      cases s
      rfl
    rw [← hback]
    exact List.mem_map_of_mem Database.rowToSwarm hmemS

/-- Witness for claim C6: inserting the concrete record `dbS1` into the
empty table and reading its project back returns it unchanged. -/
theorem db_swarm_roundtrip_witness :
    Database.get_swarms_by_project [Database.toRow dbS1] dbS1.project_id =
        Except.ok (Database.swarmsForProject [Database.toRow dbS1] dbS1.project_id) ∧
      dbS1 ∈ Database.swarmsForProject [Database.toRow dbS1] dbS1.project_id :=
  db_swarm_roundtrip [] dbS1 [Database.toRow dbS1] rfl

/-- Claim C7 counterexample: `query_swarm_memory` returns the identical
nonempty result for two distinct namespaces (and the single returned
entry has type `conversation`, unrelated to the query string), so it does
not return only entries belonging to the queried namespace that match the
predicate. -/
theorem query_memory_ignores_namespace_counterexample :
    query_swarm_memory "e-1" 3 "ns-alpha" "type:code" =
        query_swarm_memory "e-1" 3 "ns-beta" "type:code" ∧
      query_swarm_memory "e-1" 3 "ns-alpha" "type:code" =
        Except.ok [mockMemoryEntry "e-1" 3] ∧
      "ns-alpha" ≠ "ns-beta" ∧
      (mockMemoryEntry "e-1" 3).entry_type = "conversation" :=
  ⟨rfl, rfl, by decide, rfl⟩

/-- Claim C7 (amended): `query_swarm_memory` ignores both the namespace
and the query and always returns the single hard-coded mock entry
(entry type `conversation`, importance 5); with one entry the
descending-importance, descending-recency ordering holds trivially. -/
theorem query_swarm_memory_constant (freshId : String) (now : Nat)
    (ns q : String) :
    query_swarm_memory freshId now ns q =
        Except.ok [mockMemoryEntry freshId now] ∧
      (mockMemoryEntry freshId now).entry_type = "conversation" ∧
      (mockMemoryEntry freshId now).importance = 5 :=
  ⟨rfl, rfl, rfl⟩

/-- Claim C8: every task result returned by `execute_swarm_task` records
the submitted task (`task_id` equals the task's id) and carries a
confidence score in `[0, 1]`. -/
theorem task_result_records_task (freshId : String) (now : Nat) (sid : String)
    (task : Task) (r : TaskResult)
    (h : execute_swarm_task freshId now sid task = Except.ok r) :
    r.task_id = task.id ∧ 0 ≤ r.confidence ∧ r.confidence ≤ 1 := by
  unfold execute_swarm_task at h
  injection h with h'
  subst h'
  refine ⟨rfl, ?_, ?_⟩
  · show (0 : Rat) ≤ 95 / 100
    norm_num
  · show (95 : Rat) / 100 ≤ 1
    norm_num

/-- Witness for claim C8 on the concrete task `exampleTask`. -/
theorem task_result_records_task_witness :
    (mock_execute_task "res-3" 8 "swarm-main" exampleTask).task_id =
        exampleTask.id ∧
      0 ≤ (mock_execute_task "res-3" 8 "swarm-main" exampleTask).confidence ∧
      (mock_execute_task "res-3" 8 "swarm-main" exampleTask).confidence ≤ 1 :=
  task_result_records_task "res-3" 8 "swarm-main" exampleTask _ rfl

/-- Claim C9: `db_update_swarm_status` returns `Ok(())` for every swarm
id and status and leaves the whole swarms table — every row, including
the status column of the named swarm — unchanged. -/
theorem db_update_swarm_status_pure_ok (tbl : Database.SwarmTable)
    (sid st : String) :
    db_update_swarm_status tbl sid st = (Except.ok (), tbl) := rfl

/-- Claim C10: every agent in a freshly created swarm's roster starts
with no current task, is active, carries the new swarm's id, is
specialized exactly in its own agent type, and has all performance
counters at zero. -/
theorem create_swarm_agent_initial_state (swarmId : String)
    (agentId : Nat → String) (now : Nat) (config : SwarmConfig)
    (project_id : String) (a : Agent)
    (ha : a ∈ (mock_create_swarm swarmId agentId now config project_id).agents) :
    a.current_task = none ∧ a.is_active = true ∧
      a.swarm_id = (mock_create_swarm swarmId agentId now config project_id).id ∧
      a.specialization = [a.agent_type] ∧
      a.performance.tasks_completed = 0 ∧ a.performance.success_rate = 0 ∧
      a.performance.average_response_time = 0 ∧
      a.performance.collaboration_rating = 0 := by
  obtain ⟨p, _, heq⟩ := List.mem_map.mp ha
  subst heq
  exact ⟨rfl, rfl, rfl, rfl, rfl, rfl, rfl, rfl⟩

/-- Witness for claim C10 on the single-agent roster created from
`cfgMismatch`. -/
theorem create_swarm_agent_initial_state_witness :
    devAgent ∈ (mock_create_swarm "sw-9" exampleIdGen 0 cfgMismatch "p-1").agents ∧
      (devAgent.current_task = none ∧ devAgent.is_active = true ∧
        devAgent.swarm_id =
          (mock_create_swarm "sw-9" exampleIdGen 0 cfgMismatch "p-1").id ∧
        devAgent.specialization = [devAgent.agent_type] ∧
        devAgent.performance.tasks_completed = 0 ∧
        devAgent.performance.success_rate = 0 ∧
        devAgent.performance.average_response_time = 0 ∧
        devAgent.performance.collaboration_rating = 0) :=
  ⟨List.mem_cons_self devAgent [],
    create_swarm_agent_initial_state "sw-9" exampleIdGen 0 cfgMismatch "p-1"
      devAgent (List.mem_cons_self devAgent [])⟩

end Clauder
